import Mathlib

/-!
Verification of the Policy-Impact dashboard (`src/app.py`).

The script loads three CSV tables (budget, expenditure, income tax),
lets the user filter one of them by a categorical column, builds a
plotly bar/line/pie chart from the (possibly filtered) rows, and sends
free-text questions together with the concatenated tables to a hosted
question-answering model.

We embed the tabular data model and each operation of the script as
executable Lean definitions and prove the specified properties about
them.
-/

namespace PolicyImpact

/-- A cell of a pandas DataFrame: missing (`NaN`), a string, or a number. -/
inductive Cell where
  | na : Cell
  | str : String → Cell
  | num : Int → Cell
  deriving DecidableEq, Repr

/-- Pandas element-wise equality (`df[col] == v`): `NaN` compares unequal
to everything, including itself; values of different dtypes compare unequal. -/
def pdEq : Cell → Cell → Bool
  | Cell.str a, Cell.str b => a == b
  | Cell.num a, Cell.num b => a == b
  | _, _ => false

/-- An in-memory table (pandas DataFrame): named columns and a list of rows. -/
structure Table where
  header : List String
  rows : List (List Cell)
  deriving DecidableEq, Repr

/-- `pd.DataFrame()`: the empty table with no columns and no rows. -/
def emptyDataFrame : Table := ⟨[], []⟩

/-- Reading cell `i` of a row; short rows read as `NaN`
(pandas fills missing trailing fields with `NaN`). -/
def getCellRow (row : List Cell) (i : Nat) : Cell :=
  (row.get? i).getD Cell.na

/-- Position of a named column (`df["name"]` column lookup);
`none` models the `KeyError` for an absent column. -/
def colIndex (t : Table) (c : String) : Option Nat :=
  t.header.findIdx? (fun h => h = c)

/-- The values of a named column, one per row, in row order
(a pandas `Series`); `none` when the column is absent. -/
def columnValues (t : Table) (c : String) : Option (List Cell) :=
  (colIndex t c).map (fun i => t.rows.map (fun r => getCellRow r i))

/-- The name of the first column (`df.columns[0]`);
`none` models the `IndexError` on a table with zero columns. -/
def firstColumnName (t : Table) : Option String :=
  t.header.get? 0

/-- `series.dropna()`: drop the `NaN` entries. -/
def dropna (l : List Cell) : List Cell :=
  l.filter (fun c => c ≠ Cell.na)

/-- Helper for `uniqueVals`: `seen` holds the values already emitted. -/
def uniqueAux (seen : List Cell) : List Cell → List Cell
  | [] => []
  | x :: xs => if x ∈ seen then uniqueAux seen xs else x :: uniqueAux (x :: seen) xs

/-- `series.unique()`: the distinct values in order of first appearance. -/
def uniqueVals (l : List Cell) : List Cell := uniqueAux [] l

/-- `df[df[c] == v]`: the rows whose column `c` equals `v`, in order,
duplicates kept; `none` when column `c` is absent. -/
def filterByColumn (t : Table) (c : String) (v : Cell) : Option Table :=
  (colIndex t c).map
    (fun i => ⟨t.header, t.rows.filter (fun r => pdEq (getCellRow r i) v)⟩)

/-- Filtering on the first column (`df[df[df.columns[0]] == v]`);
`none` when the table has no columns. -/
def filterByFirstColumn (t : Table) (v : Cell) : Option Table :=
  (firstColumnName t).map
    (fun _ => ⟨t.header, t.rows.filter (fun r => pdEq (getCellRow r 0) v)⟩)

/-- The "Show Full Table" sentinel offered by the expenditure and
income-tax dropdowns. -/
def showFullTable : Cell := Cell.str "Show Full Table"

/-- `budget_data["Source"].dropna().unique()` (app.py line 60):
the options of the budget source dropdown. There is no sentinel here. -/
def budgetSources (t : Table) : Option (List Cell) :=
  (columnValues t "Source").map (fun l => uniqueVals (dropna l))

/-- The values of the first column, one per row
(`df[df.columns[0]]`); `none` when the table has no columns. -/
def firstColumnValues (t : Table) : Option (List Cell) :=
  (firstColumnName t).map (fun _ => t.rows.map (fun r => getCellRow r 0))

/-- `["Show Full Table"] + list(unique of first column)` (app.py lines 91-92
and 134-135): the options of the expenditure / income-tax dropdowns. -/
def dropdownOptions (t : Table) : Option (List Cell) :=
  (firstColumnValues t).map
    (fun l => showFullTable :: uniqueVals (dropna l))

/-! ### CSV loading -/

/-- A physical line of a CSV file as the parser sees it: either a
well-formed record or a malformed one (wrong number of fields). -/
inductive CsvLine where
  | wellFormed : List Cell → CsvLine
  | malformed : CsvLine
  deriving DecidableEq, Repr

/-- `pd.read_csv(path, on_bad_lines="skip")`: keep the well-formed
records in order, silently skipping malformed lines. -/
def readCsvSkipBadLines (header : List String) (lines : List CsvLine) : Table :=
  ⟨header,
    lines.filterMap (fun l =>
      match l with
      | CsvLine.wellFormed cells => some cells
      | CsvLine.malformed => none)⟩

/-- Whether a CSV line is a well-formed record. -/
def isWellFormed : CsvLine → Bool
  | CsvLine.wellFormed _ => true
  | CsvLine.malformed => false

/-- The cells of a CSV line (a malformed line carries none). -/
def lineCells : CsvLine → List Cell
  | CsvLine.wellFormed cs => cs
  | CsvLine.malformed => []

/-- `load_budget_data` (app.py lines 19-23): call `pd.read_csv` and return
the result; a read failure propagates unhandled. The argument stands for
the outcome of `pd.read_csv("Combined_Financial_Data.csv")`. -/
def load_budget_data (readResult : Except String Table) : Except String Table := do
  let data ← readResult
  return data

/-- `load_expenditure_data` (app.py lines 25-29): identical structure,
reading `Expenditure.csv`; a read failure propagates unhandled. -/
def load_expenditure_data (readResult : Except String Table) : Except String Table := do
  let data ← readResult
  return data

/-- `load_income_tax_data` (app.py lines 31-39): try the read; on any
exception show `st.error(...)` and substitute `pd.DataFrame()`. The second
component is the error message displayed, if any. -/
def load_income_tax_data (readResult : Except String Table) : Table × Option String :=
  match readResult with
  | Except.ok data => (data, none)
  | Except.error e => (emptyDataFrame, some ("Error loading Income Tax Data: " ++ e))

/-! ### Inference bridge -/

/-- The outcome of the hosted-model call `api(payload)`: a JSON object
(a list of string fields) on success, or a raised transport error. -/
inductive ApiResult where
  | ok : List (String × String) → ApiResult
  | transportError : String → ApiResult
  deriving DecidableEq, Repr

/-- `dict.get(key, default)` lookup on a JSON object. -/
def lookupField : List (String × String) → String → Option String
  | [], _ => none
  | (k, v) :: rest, key => if k = key then some v else lookupField rest key

/-- `query_hf_api` (app.py lines 13-16): call the API and return
`result.get("answer", "No answer found.")`; a transport error is not
caught and propagates as `Except.error`. -/
def query_hf_api (callResult : ApiResult) : Except String String :=
  match callResult with
  | ApiResult.transportError e => Except.error e
  | ApiResult.ok fields =>
      Except.ok ((lookupField fields "answer").getD "No answer found.")

/-! ### Chart builder -/

/-- The three chart kinds offered by the chart-type dropdown. -/
inductive ChartType where
  | barChart
  | lineChart
  | pieChart
  deriving DecidableEq, Repr

/-- A plotly figure as built by `px.bar` / `px.line` / `px.pie`: the kind,
the x/names data series, the y/values data series, and the title. The
series are the selected columns, one entry per input row, in row order. -/
structure ChartSpec where
  kind : ChartType
  xSeries : List Cell
  ySeries : List Cell
  title : String
  deriving DecidableEq, Repr

/-- `px.bar(df, x=x, y=y, title=title)`; `none` models the raised error
when a selected column is absent. -/
def px_bar (t : Table) (x y title : String) : Option ChartSpec := do
  let xs ← columnValues t x
  let ys ← columnValues t y
  return ⟨ChartType.barChart, xs, ys, title⟩

/-- `px.line(df, x=x, y=y, title=title)`. -/
def px_line (t : Table) (x y title : String) : Option ChartSpec := do
  let xs ← columnValues t x
  let ys ← columnValues t y
  return ⟨ChartType.lineChart, xs, ys, title⟩

/-- `px.pie(df, names=x, values=y, title=title)`: the figure's `labels`
and `values` arrays are the two columns as given, row by row. -/
def px_pie (t : Table) (x y title : String) : Option ChartSpec := do
  let xs ← columnValues t x
  let ys ← columnValues t y
  return ⟨ChartType.pieChart, xs, ys, title⟩

/-- The three-way `chart_type` dispatch (app.py lines 73-81, 116-124,
159-167). -/
def buildChart (ct : ChartType) (t : Table) (x y title : String) : Option ChartSpec :=
  match ct with
  | ChartType.barChart => px_bar t x y title
  | ChartType.lineChart => px_line t x y title
  | ChartType.pieChart => px_pie t x y title

/-! ### Tab views -/

/-- The budget tab's displayed table (app.py line 64):
`budget_data[budget_data["Source"] == selected]`. There is no sentinel
branch on this tab; every selection filters. -/
def budgetTabView (t : Table) (selected : Cell) : Option Table :=
  filterByColumn t "Source" selected

/-- The expenditure tab's displayed table (app.py lines 96-102): the whole
table for the "Show Full Table" sentinel, otherwise the rows whose first
column equals the selection. -/
def expenditureTabView (t : Table) (selected : Cell) : Option Table :=
  if selected = showFullTable then some t
  else filterByFirstColumn t selected

/-- The income-tax tab's displayed table (app.py lines 139-145): same
structure as the expenditure tab. -/
def incomeTaxTabView (t : Table) (selected : Cell) : Option Table :=
  if selected = showFullTable then some t
  else filterByFirstColumn t selected

/-- `income_tax_data[income_tax_data.columns[0]].dropna().unique()`
(app.py line 134): the category options of the income-tax tab; `none`
models the `IndexError` of `columns[0]` on a table with zero columns. -/
def incomeTaxCategories (t : Table) : Option (List Cell) :=
  (firstColumnValues t).map (fun l => uniqueVals (dropna l))

/-! ### Question answering -/

/-- Column order of `pd.concat`: the columns of the first frame, then the
new columns of the second in order of appearance. -/
def unionHeaders (h1 h2 : List String) : List String :=
  h1 ++ h2.filter (fun c => decide (c ∉ h1))

/-- Align a row from a table with header `oldH` to a wider header `newH`,
filling the columns the row does not have with `NaN` (what `pd.concat`
does when the frames have different columns). -/
def reindexRow (oldH newH : List String) (row : List Cell) : List Cell :=
  newH.map (fun c =>
    match oldH.findIdx? (fun h => h = c) with
    | some i => getCellRow row i
    | none => Cell.na)

/-- `pd.concat([t1, t2], ignore_index=True)` for two frames. -/
def concat2 (t1 t2 : Table) : Table :=
  let h := unionHeaders t1.header t2.header
  ⟨h, t1.rows.map (reindexRow t1.header h) ++ t2.rows.map (reindexRow t2.header h)⟩

/-- `pd.concat([budget, expenditure, income_tax], ignore_index=True)`
(app.py line 176). -/
def concatTables (ts : List Table) : Table :=
  ts.foldl concat2 emptyDataFrame

/-- Render one row as text, cells separated by single spaces. -/
def renderRow (row : List Cell) : String :=
  String.intercalate " "
    (row.map (fun c =>
      match c with
      | Cell.na => "NaN"
      | Cell.str s => s
      | Cell.num n => toString n))

/-- `df.to_string(index=False)` (app.py line 177): the header line followed
by one line per row. -/
def renderTable (t : Table) : String :=
  String.intercalate "\x0a"
    (String.intercalate " " t.header :: t.rows.map renderRow)

/-- The three loaded tables of one session (app.py lines 42-44). -/
structure AppState where
  budget : Table
  expenditure : Table
  incomeTax : Table
  deriving DecidableEq, Repr

/-- The context string of app.py lines 176-177: all three tables
concatenated (budget, then expenditure, then income tax) and rendered
as text. -/
def buildContext (s : AppState) : String :=
  renderTable (concatTables [s.budget, s.expenditure, s.incomeTax])

/-- The question block (app.py lines 174-179): build the context, call
`query_hf_api`, and display `f"**Answer:** {answer}"`. The `api` argument
stands for the hosted model: given question and context it yields the
call's outcome. Returns the displayed line, or the propagated error. -/
def questionBlock (s : AppState) (question : String)
    (api : String → String → ApiResult) : Except String String := do
  let answer ← query_hf_api (api question (buildContext s))
  return "**Answer:** " ++ answer

/-! ### Per-interaction rendering step -/

/-- The dataset-type dropdown (app.py line 55). -/
inductive DatasetType where
  | budgetData
  | expenditureData
  | incomeTaxData
  deriving DecidableEq, Repr

/-- What one render cycle of a tab displays: the (possibly filtered)
table and the chart; `none` components model operations that raised. -/
structure RenderOutput where
  view : Option Table
  chart : Option ChartSpec
  deriving DecidableEq, Repr

/-- One render cycle of the selected tab (app.py lines 57-167), written in
state-passing style over the three loaded tables: the script only reads
the frames (indexing returns new frames), so each branch returns the
state it was given. -/
def renderTab (s : AppState) (tab : DatasetType) (selected : Cell)
    (ct : ChartType) (x y : String) : RenderOutput × AppState :=
  match tab with
  | DatasetType.budgetData =>
      let view := budgetTabView s.budget selected
      let chart := view.bind (fun ft => buildChart ct ft x y "")
      (⟨view, chart⟩, s)
  | DatasetType.expenditureData =>
      let view := expenditureTabView s.expenditure selected
      let chart := view.bind (fun dataToPlot => buildChart ct dataToPlot x y "")
      (⟨view, chart⟩, s)
  | DatasetType.incomeTaxData =>
      let view := incomeTaxTabView s.incomeTax selected
      let chart := view.bind (fun dataToPlot => buildChart ct dataToPlot x y "")
      (⟨view, chart⟩, s)

/-! ### Concrete tables for instantiating the theorems -/

/-- A small expenditure-style table: value `"A"` appears in two rows. -/
def eTable : Table :=
  ⟨["Region", "Amount"],
    [[Cell.str "A", Cell.num 1], [Cell.str "B", Cell.num 2], [Cell.str "A", Cell.num 3]]⟩

/-- A small budget-style table with a `"Source"` column. -/
def bTable : Table :=
  ⟨["Source", "Amount"], [[Cell.str "A", Cell.num 1], [Cell.str "B", Cell.num 2]]⟩

/-- A session state holding the two small tables. -/
def sState : AppState := ⟨bTable, eTable, eTable⟩

/-- A stub hosted model that always answers `"42"`. -/
def stubApi : String → String → ApiResult :=
  fun _ _ => ApiResult.ok [("answer", "42")]

/-! ### Helper lemmas -/

theorem pdEq_refl (c : Cell) (h : c ≠ Cell.na) : pdEq c c = true := by
  cases c with
  | na => exact absurd rfl h
  | str s => simp [pdEq]
  | num n => simp [pdEq]

theorem eq_of_pdEq {a b : Cell} (h : pdEq a b = true) : a = b := by
  cases a <;> cases b <;> simp_all [pdEq]

theorem mem_of_mem_uniqueAux {v : Cell} :
    ∀ (seen l : List Cell), v ∈ uniqueAux seen l → v ∈ l := by
  intro seen l
  induction l generalizing seen with
  | nil => intro h; simp [uniqueAux] at h
  | cons x xs ih =>
    intro h
    rw [uniqueAux] at h
    by_cases hx : x ∈ seen
    · rw [if_pos hx] at h
      exact List.mem_cons_of_mem _ (ih seen h)
    · rw [if_neg hx] at h
      rcases List.mem_cons.mp h with h1 | h2
      · exact h1 ▸ List.mem_cons_self _ _
      · exact List.mem_cons_of_mem _ (ih (x :: seen) h2)

theorem mem_of_mem_uniqueVals {v : Cell} {l : List Cell} (h : v ∈ uniqueVals l) :
    v ∈ l :=
  mem_of_mem_uniqueAux [] l h

theorem mem_dropna {v : Cell} {l : List Cell} (h : v ∈ dropna l) :
    v ∈ l ∧ v ≠ Cell.na := by
  have := List.mem_filter.mp h
  exact ⟨this.1, by simpa using this.2⟩

theorem concat2_rows_length (t1 t2 : Table) :
    (concat2 t1 t2).rows.length = t1.rows.length + t2.rows.length := by
  simp [concat2]

theorem concat2_empty_rows_length (t : Table) :
    (concat2 emptyDataFrame t).rows.length = t.rows.length := by
  simp [concat2, emptyDataFrame]

/-! ### Claims -/

/-- C2: the inference bridge returns the `answer` field of the model's
response when present, the fixed fallback string `"No answer found."` when
the field is absent, and propagates a transport error unhandled. -/
theorem query_hf_api_answer_fallback_error
    (fields : List (String × String)) (a e : String) :
    (lookupField fields "answer" = some a →
      query_hf_api (ApiResult.ok fields) = Except.ok a) ∧
    (lookupField fields "answer" = none →
      query_hf_api (ApiResult.ok fields) = Except.ok "No answer found.") ∧
    query_hf_api (ApiResult.transportError e) = Except.error e := by
  refine ⟨?_, ?_, rfl⟩
  · intro h
    simp [query_hf_api, h]
  · intro h
    simp [query_hf_api, h]

/-- C2 witness: the bridge at a stubbed response `{"answer": "42"}`, at a
response missing the `answer` field, and at a transport error. -/
theorem query_hf_api_answer_fallback_error_witness :
    query_hf_api (ApiResult.ok [("answer", "42")]) = Except.ok "42" ∧
    query_hf_api (ApiResult.ok [("status", "ok")]) = Except.ok "No answer found." ∧
    query_hf_api (ApiResult.transportError "timeout") = Except.error "timeout" :=
  ⟨(query_hf_api_answer_fallback_error [("answer", "42")] "42" "timeout").1 (by decide),
   (query_hf_api_answer_fallback_error [("status", "ok")] "42" "timeout").2.1 (by decide),
   (query_hf_api_answer_fallback_error [] "42" "timeout").2.2⟩

/-- C3: the income-tax loader never lets an exception escape: with
`on_bad_lines="skip"` a file with malformed lines yields exactly the
well-formed rows in order, and a total parse failure is caught, reported
via `st.error`, and replaced by the empty table. -/
theorem income_tax_loader_never_raises
    (header : List String) (lines : List CsvLine) (e : String) :
    (load_income_tax_data (Except.ok (readCsvSkipBadLines header lines))).1.rows
      = (lines.filter isWellFormed).map lineCells ∧
    (load_income_tax_data (Except.ok (readCsvSkipBadLines header lines))).2 = none ∧
    load_income_tax_data (Except.error e)
      = (emptyDataFrame, some ("Error loading Income Tax Data: " ++ e)) := by
  refine ⟨?_, rfl, rfl⟩
  show lines.filterMap (fun l =>
      match l with
      | CsvLine.wellFormed cells => some cells
      | CsvLine.malformed => none)
    = (lines.filter isWellFormed).map lineCells
  induction lines with
  | nil => rfl
  | cons l ls ih =>
    cases l with
    | wellFormed cs =>
        simp [List.filterMap_cons, List.filter_cons, isWellFormed, lineCells, ih]
    | malformed =>
        simp [List.filterMap_cons, List.filter_cons, isWellFormed, ih]

/-- C7: the budget and expenditure loaders have no fallback: a read
failure propagates out unchanged, and a successful read is returned
unchanged. -/
theorem budget_expenditure_loaders_propagate (e : String) (t : Table) :
    load_budget_data (Except.error e) = Except.error e ∧
    load_expenditure_data (Except.error e) = Except.error e ∧
    load_budget_data (Except.ok t) = Except.ok t ∧
    load_expenditure_data (Except.ok t) = Except.ok t :=
  ⟨rfl, rfl, rfl, rfl⟩

/-- C9: one render cycle of any tab leaves the three loaded tables
unchanged: filtering and chart building only read them. -/
theorem renderTab_preserves_tables (s : AppState) (tab : DatasetType)
    (selected : Cell) (ct : ChartType) (x y : String) :
    (renderTab s tab selected ct x y).2 = s := by
  cases tab <;> rfl

/-- C10: when the income-tax loader falls back to the empty table, the
income-tax tab's `columns[0]` read is out of bounds (`none`); the access
succeeds exactly under the precondition that the table has at least one
column. -/
theorem income_tax_first_column_oob (e : String) (t : Table) :
    incomeTaxCategories (load_income_tax_data (Except.error e)).1 = none ∧
    (t.header ≠ [] → (incomeTaxCategories t).isSome = true) := by
  constructor
  · rfl
  · intro h
    cases ht : t.header with
    | nil => exact absurd ht h
    | cons c cs =>
        simp [incomeTaxCategories, firstColumnValues, firstColumnName, ht]

/-- C10 witness: a failed parse yields a table whose first-column read is
out of bounds, while on a table with columns it succeeds. -/
theorem income_tax_first_column_oob_witness :
    incomeTaxCategories (load_income_tax_data (Except.error "bad file")).1 = none ∧
    (incomeTaxCategories eTable).isSome = true := by
  have h := income_tax_first_column_oob "bad file" eTable
  exact ⟨h.1, h.2 (by decide)⟩

/-- C1: selecting a value `v` (not the sentinel) that appears in exactly
`K` rows of the filter column returns exactly those `K` rows unchanged —
a sublist of the original rows (same content, same order), all matching,
with duplicates kept (per-row multiplicity preserved) — and selecting the
"Show Full Table" sentinel returns the whole table. -/
theorem expenditure_filter_exact_rows (t : Table) (v : Cell) (K : Nat)
    (hcols : t.header ≠ [])
    (hv : v ≠ showFullTable)
    (hK : t.rows.countP (fun r => pdEq (getCellRow r 0) v) = K) :
    (∃ ft : Table, expenditureTabView t v = some ft ∧
      ft.header = t.header ∧
      ft.rows.length = K ∧
      ft.rows.Sublist t.rows ∧
      (∀ r ∈ ft.rows, pdEq (getCellRow r 0) v = true) ∧
      (∀ r : List Cell, pdEq (getCellRow r 0) v = true →
        ft.rows.count r = t.rows.count r)) ∧
    expenditureTabView t showFullTable = some t := by
  constructor
  · obtain ⟨c0, hc0⟩ : ∃ c0, firstColumnName t = some c0 := by
      rw [← Option.isSome_iff_exists]
      cases ht : t.header with
      | nil => exact absurd ht hcols
      | cons c cs => simp [firstColumnName, ht]
    refine ⟨⟨t.header, t.rows.filter (fun r => pdEq (getCellRow r 0) v)⟩,
      ?_, rfl, ?_, List.filter_sublist _, ?_, ?_⟩
    · rw [expenditureTabView, if_neg hv, filterByFirstColumn, hc0, Option.map_some']
    · rw [← hK, List.countP_eq_length_filter]
    · intro r hr
      exact (List.mem_filter.mp hr).2
    · intro r hr
      exact List.count_filter hr
  · rw [expenditureTabView, if_pos rfl]

/-- C1 witness: in `eTable` the value `"A"` appears in exactly two rows;
filtering returns those two rows, and the sentinel returns the table. -/
theorem expenditure_filter_exact_rows_witness :
    (∃ ft : Table, expenditureTabView eTable (Cell.str "A") = some ft ∧
      ft.header = eTable.header ∧
      ft.rows.length = 2 ∧
      ft.rows.Sublist eTable.rows ∧
      (∀ r ∈ ft.rows, pdEq (getCellRow r 0) (Cell.str "A") = true) ∧
      (∀ r : List Cell, pdEq (getCellRow r 0) (Cell.str "A") = true →
        ft.rows.count r = eTable.rows.count r)) ∧
    expenditureTabView eTable showFullTable = some eTable :=
  expenditure_filter_exact_rows eTable (Cell.str "A") 2
    (by decide) (by decide) (by decide)

/-- C4: on a table containing the chosen x and y columns, every chart
kind (bar, line, and pie alike) succeeds and its data series are exactly
the chosen columns, one entry per input row, in row order — no
reordering, no dropped rows, and no merged rows even when x-values
repeat. -/
theorem chart_series_one_to_one (t : Table) (x y title : String) (ct : ChartType)
    (hx : x ∈ t.header) (hy : y ∈ t.header) :
    ∃ (spec : ChartSpec) (ix iy : Nat),
      buildChart ct t x y title = some spec ∧
      colIndex t x = some ix ∧
      colIndex t y = some iy ∧
      spec.kind = ct ∧
      spec.xSeries = t.rows.map (fun r => getCellRow r ix) ∧
      spec.ySeries = t.rows.map (fun r => getCellRow r iy) ∧
      spec.xSeries.length = t.rows.length ∧
      spec.ySeries.length = t.rows.length := by
  obtain ⟨ix, hix⟩ : ∃ ix, colIndex t x = some ix := by
    rw [← Option.isSome_iff_exists, colIndex, List.findIdx?_isSome]
    exact List.any_eq_true.mpr ⟨x, hx, by simp⟩
  obtain ⟨iy, hiy⟩ : ∃ iy, colIndex t y = some iy := by
    rw [← Option.isSome_iff_exists, colIndex, List.findIdx?_isSome]
    exact List.any_eq_true.mpr ⟨y, hy, by simp⟩
  cases ct with
  | barChart =>
      refine ⟨⟨ChartType.barChart, t.rows.map (fun r => getCellRow r ix),
        t.rows.map (fun r => getCellRow r iy), title⟩, ix, iy,
        ?_, hix, hiy, rfl, rfl, rfl, by simp, by simp⟩
      simp [buildChart, px_bar, columnValues, hix, hiy]
  | lineChart =>
      refine ⟨⟨ChartType.lineChart, t.rows.map (fun r => getCellRow r ix),
        t.rows.map (fun r => getCellRow r iy), title⟩, ix, iy,
        ?_, hix, hiy, rfl, rfl, rfl, by simp, by simp⟩
      simp [buildChart, px_line, columnValues, hix, hiy]
  | pieChart =>
      refine ⟨⟨ChartType.pieChart, t.rows.map (fun r => getCellRow r ix),
        t.rows.map (fun r => getCellRow r iy), title⟩, ix, iy,
        ?_, hix, hiy, rfl, rfl, rfl, by simp, by simp⟩
      simp [buildChart, px_pie, columnValues, hix, hiy]

/-- C4 witness: a pie chart on `eTable` (whose x column repeats `"A"`)
succeeds with both series matching the rows one-to-one. -/
theorem chart_series_one_to_one_witness :
    ∃ (spec : ChartSpec) (ix iy : Nat),
      buildChart ChartType.pieChart eTable "Region" "Amount" "T" = some spec ∧
      colIndex eTable "Region" = some ix ∧
      colIndex eTable "Amount" = some iy ∧
      spec.kind = ChartType.pieChart ∧
      spec.xSeries = eTable.rows.map (fun r => getCellRow r ix) ∧
      spec.ySeries = eTable.rows.map (fun r => getCellRow r iy) ∧
      spec.xSeries.length = eTable.rows.length ∧
      spec.ySeries.length = eTable.rows.length :=
  chart_series_one_to_one eTable "Region" "Amount" "T" ChartType.pieChart
    (by decide) (by decide)

/-- C5: every value offered by a selection dropdown other than the
sentinel occurs in the table's filter column, so filtering by any offered
value returns at least one row — for the "Show Full Table" dropdowns
(first column) and for the budget source dropdown (the `Source` column)
alike. -/
theorem dropdown_values_always_match (t : Table) (v : Cell) :
    (∀ opts, dropdownOptions t = some opts → v ∈ opts → v ≠ showFullTable →
      ∃ ft : Table, filterByFirstColumn t v = some ft ∧ ft.rows ≠ []) ∧
    (∀ opts, budgetSources t = some opts → v ∈ opts →
      ∃ ft : Table, budgetTabView t v = some ft ∧ ft.rows ≠ []) := by
  constructor
  · intro opts hopts hv hne
    obtain ⟨l, hl, hopts'⟩ := Option.map_eq_some'.mp hopts
    obtain ⟨c0, hc0, hl'⟩ := Option.map_eq_some'.mp hl
    subst hopts'
    have hvu : v ∈ uniqueVals (dropna l) := by
      rcases List.mem_cons.mp hv with h1 | h2
      · exact absurd h1 hne
      · exact h2
    have hvl := mem_dropna (mem_of_mem_uniqueVals hvu)
    rw [← hl'] at hvl
    obtain ⟨r, hr, hrv⟩ := List.mem_map.mp hvl.1
    refine ⟨⟨t.header, t.rows.filter (fun r => pdEq (getCellRow r 0) v)⟩, ?_, ?_⟩
    · rw [filterByFirstColumn, hc0, Option.map_some']
    · refine List.ne_nil_of_mem (a := r) (List.mem_filter.mpr ⟨hr, ?_⟩)
      rw [hrv]
      exact pdEq_refl v hvl.2
  · intro opts hopts hv
    obtain ⟨l, hl, hopts'⟩ := Option.map_eq_some'.mp hopts
    obtain ⟨i, hi, hl'⟩ := Option.map_eq_some'.mp hl
    subst hopts'
    have hvl := mem_dropna (mem_of_mem_uniqueVals hv)
    rw [← hl'] at hvl
    obtain ⟨r, hr, hrv⟩ := List.mem_map.mp hvl.1
    refine ⟨⟨t.header, t.rows.filter (fun r => pdEq (getCellRow r i) v)⟩, ?_, ?_⟩
    · rw [budgetTabView, filterByColumn, hi, Option.map_some']
    · refine List.ne_nil_of_mem (a := r) (List.mem_filter.mpr ⟨hr, ?_⟩)
      rw [hrv]
      exact pdEq_refl v hvl.2

/-- C5 witness: filtering `eTable` by its offered value `"B"` and
`bTable` by its offered source `"A"` both return at least one row. -/
theorem dropdown_values_always_match_witness :
    (∃ ft : Table, filterByFirstColumn eTable (Cell.str "B") = some ft ∧ ft.rows ≠ []) ∧
    (∃ ft : Table, budgetTabView bTable (Cell.str "A") = some ft ∧ ft.rows ≠ []) :=
  ⟨(dropdown_values_always_match eTable (Cell.str "B")).1
      [showFullTable, Cell.str "A", Cell.str "B"] (by decide) (by decide) (by decide),
   (dropdown_values_always_match bTable (Cell.str "A")).2
      [Cell.str "A", Cell.str "B"] (by decide) (by decide)⟩

/-- C6 counterexample: the budget tab offers no "no filter" sentinel and
does not return the whole table when the sentinel string is selected: on
`bTable` the options are just the distinct sources, the sentinel is not
among them, and selecting it filters everything away instead of showing
the full table. -/
theorem budget_tab_has_no_sentinel :
    budgetSources bTable = some [Cell.str "A", Cell.str "B"] ∧
    showFullTable ∉ [Cell.str "A", Cell.str "B"] ∧
    budgetTabView bTable showFullTable = some ⟨bTable.header, []⟩ ∧
    budgetTabView bTable showFullTable ≠ some bTable := by
  decide

/-- C6 amended: the expenditure and income-tax selectors accept the
"Show Full Table" sentinel and return the whole table for it; the budget
selector has no sentinel — selecting the sentinel string there filters by
`Source`, returning no rows when no source equals that string. -/
theorem sentinel_only_on_expenditure_and_income_tax (t : Table) (i : Nat)
    (hi : colIndex t "Source" = some i)
    (hno : ∀ r ∈ t.rows, getCellRow r i ≠ showFullTable) :
    expenditureTabView t showFullTable = some t ∧
    incomeTaxTabView t showFullTable = some t ∧
    budgetTabView t showFullTable = some ⟨t.header, []⟩ := by
  refine ⟨by rw [expenditureTabView, if_pos rfl],
    by rw [incomeTaxTabView, if_pos rfl], ?_⟩
  rw [budgetTabView, filterByColumn, hi, Option.map_some']
  have : t.rows.filter (fun r => pdEq (getCellRow r i) showFullTable) = [] := by
    rw [List.filter_eq_nil_iff]
    intro r hr hp
    exact hno r hr (eq_of_pdEq hp)
  rw [this]

/-- C6 amended witness: on `bTable` (whose `Source` column never equals
the sentinel string) the sentinel shows the full expenditure and
income-tax views but filters the budget view down to nothing. -/
theorem sentinel_only_on_expenditure_and_income_tax_witness :
    expenditureTabView bTable showFullTable = some bTable ∧
    incomeTaxTabView bTable showFullTable = some bTable ∧
    budgetTabView bTable showFullTable = some ⟨bTable.header, []⟩ :=
  sentinel_only_on_expenditure_and_income_tax bTable 0 (by decide) (by decide)

/-- C8: the context sent to the hosted model is the concatenation of the
three loaded tables — budget, then expenditure, then income tax (their
row counts add up) — rendered as text, and when the model answers, the
displayed line carries exactly the model's answer string. -/
theorem question_context_and_answer (s : AppState) (q : String)
    (api : String → String → ApiResult)
    (fields : List (String × String)) (a : String)
    (hcall : api q (buildContext s) = ApiResult.ok fields)
    (ha : lookupField fields "answer" = some a) :
    buildContext s
      = renderTable (concatTables [s.budget, s.expenditure, s.incomeTax]) ∧
    (concatTables [s.budget, s.expenditure, s.incomeTax]).rows.length
      = s.budget.rows.length + s.expenditure.rows.length + s.incomeTax.rows.length ∧
    questionBlock s q api = Except.ok ("**Answer:** " ++ a) := by
  refine ⟨rfl, ?_, ?_⟩
  · show (concat2 (concat2 (concat2 emptyDataFrame s.budget) s.expenditure)
        s.incomeTax).rows.length = _
    rw [concat2_rows_length, concat2_rows_length, concat2_empty_rows_length]
  · rw [questionBlock]
    simp [query_hf_api, hcall, ha]

/-- C8 witness: with the stub model, the question block on `sState`
displays the stub's answer over the rendered concatenated context. -/
theorem question_context_and_answer_witness :
    buildContext sState
      = renderTable (concatTables [sState.budget, sState.expenditure, sState.incomeTax]) ∧
    (concatTables [sState.budget, sState.expenditure, sState.incomeTax]).rows.length
      = sState.budget.rows.length + sState.expenditure.rows.length
        + sState.incomeTax.rows.length ∧
    questionBlock sState "What is the total?" stubApi
      = Except.ok ("**Answer:** " ++ "42") :=
  question_context_and_answer sState "What is the total?" stubApi
    [("answer", "42")] "42" rfl rfl

end PolicyImpact
